import Mathlib

/-!
Shallow embedding of the prescription-app frontend (React) for verification.

Source layout:
* `CreateFull`  — the first `CreatePrescription.js` variant: comprehensive
  medicine search (query concatenates name/dosage/frequency), patient and
  investigation typeahead, dosage optional in validation.
* `CreateBasic` — the second `CreatePrescription.js` variant: name-only
  medicine search, dosage required in validation, selection sets only the
  name field.
* `AppShell`    — `App.js` routing gate together with the storage-backed
  session and the `Dashboard.js` / `ViewPrescription.js` fetch error paths.

React `useState` state is modelled as explicit record-passing; every event
handler is a pure function from state to state, returning alongside it any
outbound search request it issues (so that "no network call" is a provable
proposition).  Async resolution and rejection of a request are separate
functions applied to whatever state holds when the response arrives.
-/

namespace RxApp

/-- JS `a || b` on strings: the empty string is the only falsy string. -/
def jsOrStr (a b : String) : String := if a = "" then b else a

/-- JS `s.trim()`: strip leading and trailing whitespace.  Implemented by
structural recursion on the character list so it evaluates inside proofs. -/
def jsTrim (s : String) : String :=
  ⟨((s.toList.dropWhile (fun c => c.isWhitespace)).reverse.dropWhile
      (fun c => c.isWhitespace)).reverse⟩

/-- One row of the prescription medicine list (`{ name, dosage, frequency }`). -/
structure MedicineLine where
  name : String
  dosage : String
  frequency : String
deriving DecidableEq

/-- Item of `GET /api/medicines/search` (`{id, name, dosage?, frequency?, common_dosages}`).
Absent optional fields are modelled as the empty string, which is exactly
the set of falsy string values the handlers test with `||` and `if`. -/
structure MedicineEntity where
  id : Nat
  name : String
  dosage : String
  frequency : String
  common_dosages : List String
deriving DecidableEq

/-- Item of `GET /api/patients/search` (`{id, name, age?}`). -/
structure PatientEntity where
  id : Nat
  name : String
  age : Option Nat
deriving DecidableEq

/-- Item of `GET /api/investigations/search` (`{id, name}`). -/
structure InvestigationEntity where
  id : Nat
  name : String
deriving DecidableEq

/-- An outbound medicine-search request.  `issuingRow` records the value of
`activeSearchIndex` at issue time (the row whose input triggered it). -/
structure MedSearchRequest where
  issuingRow : Nat
  query : String
deriving DecidableEq

/-- Failure taxonomy of an authenticated request: transport failure or 401. -/
inductive ApiError where
  | network
  | auth
deriving DecidableEq

/-- JSON value as far as the POST bodies need: null, number, or string. -/
inductive JVal where
  | jnull
  | jnum (n : Int)
  | jstr (v : String)
deriving DecidableEq

/-- Replace the element at position `i` (JS `arr[i] = f(arr[i])` on a copy);
out of range leaves the list unchanged. -/
def updateAt {α : Type} (l : List α) (i : Nat) (g : α → α) : List α :=
  match l, i with
  | [], _ => []
  | x :: xs, 0 => g x :: xs
  | x :: xs, Nat.succ n => x :: updateAt xs n g

theorem updateAt_getq {α : Type} (l : List α) (i : Nat) (g : α → α) :
    (updateAt l i g)[i]? = l[i]?.map g := by
  induction l generalizing i with
  | nil => cases i <;> rfl
  | cons x xs ih => cases i with
    | zero => simp [updateAt]
    | succ n => simpa [updateAt] using ih n

theorem updateAt_length {α : Type} (l : List α) (i : Nat) (g : α → α) :
    (updateAt l i g).length = l.length := by
  induction l generalizing i with
  | nil => cases i <;> rfl
  | cons x xs ih => cases i with
    | zero => rfl
    | succ n => simpa [updateAt] using ih n

/-- Leading decimal digits of a character list. -/
def takeDigits : List Char → List Char
  | [] => []
  | c :: cs => if c.isDigit then c :: takeDigits cs else []

/-- Accumulate a digit list into a natural number. -/
def digitsToNat : List Char → Nat → Nat
  | [], acc => acc
  | c :: cs, acc => digitsToNat cs (acc * 10 + (c.toNat - '0'.toNat))

/-- JS `parseInt(s)` (radix 10): skip leading whitespace, optional sign,
parse the leading digit run; `none` models the NaN result. -/
def jsParseInt (s : String) : Option Int :=
  let cs := s.toList.dropWhile (fun c => c.isWhitespace)
  let signAndRest : Int × List Char :=
    match cs with
    | '-' :: t => (-1, t)
    | '+' :: t => (1, t)
    | t => (1, t)
  let ds := takeDigits signAndRest.2
  if ds.isEmpty then none
  else some (signAndRest.1 * (digitsToNat ds 0 : Int))

end RxApp

namespace CreateFull

open RxApp

/-- The `useState` pieces of the first `CreatePrescription` variant, plus a
toast log standing for the `sonner` notifications the page emits. -/
structure State where
  patient_name : String
  patient_age : String
  date : String
  diagnosis : String
  investigations : String
  doctor_notes : String
  medicines : List MedicineLine
  medicineSearch : String
  medicineSuggestions : List MedicineEntity
  activeSearchIndex : Option Nat
  patientSuggestions : List PatientEntity
  showPatientSuggestions : Bool
  investigationSuggestions : List InvestigationEntity
  showInvestigationSuggestions : Bool
  loading : Bool
  toasts : List String
deriving DecidableEq

/-- The `useEffect` on `[medicineSearch, activeSearchIndex]`: issue a search
when the query is non-empty and a row is active, otherwise clear the
suggestion list.  The request records the issuing row. -/
def medSearchEffect (s : State) : State × Option MedSearchRequest :=
  match s.activeSearchIndex with
  | some i =>
      if s.medicineSearch ≠ "" then (s, some ⟨i, s.medicineSearch⟩)
      else ({ s with medicineSuggestions := [] }, none)
  | none => ({ s with medicineSuggestions := [] }, none)

/-- Resolution branch of `searchMedicines`: `setMedicineSuggestions(response.data)`,
applied to whatever state holds when the response arrives. -/
def searchMedicinesResolve (s : State) (resp : List MedicineEntity) : State :=
  { s with medicineSuggestions := resp }

/-- Catch branch of `searchMedicines`: only `console.error`, no state change. -/
def searchMedicinesCatch (s : State) (_e : ApiError) : State := s

/-- Resolution branch of `searchPatients`. -/
def searchPatientsResolve (s : State) (resp : List PatientEntity) : State :=
  { s with patientSuggestions := resp }

/-- Catch branch of `searchPatients`: only `console.error`, no state change. -/
def searchPatientsCatch (s : State) (_e : ApiError) : State := s

/-- Resolution branch of `searchInvestigations`. -/
def searchInvestigationsResolve (s : State) (resp : List InvestigationEntity) : State :=
  { s with investigationSuggestions := resp }

/-- Catch branch of `searchInvestigations`: only `console.error`. -/
def searchInvestigationsCatch (s : State) (_e : ApiError) : State := s

/-- `handlePatientNameChange(value)`: update the field; a truthy value fires
a patient search (returned as `some query`) and shows the dropdown, an empty
one clears and hides the suggestions without any request. -/
def handlePatientNameChange (value : String) (s : State) : State × Option String :=
  let s1 := { s with patient_name := value }
  if value ≠ "" then
    ({ s1 with showPatientSuggestions := true }, some value)
  else
    ({ s1 with patientSuggestions := [], showPatientSuggestions := false }, none)

/-- `handleInvestigationChange(value)`: same shape as the patient handler. -/
def handleInvestigationChange (value : String) (s : State) : State × Option String :=
  let s1 := { s with investigations := value }
  if value ≠ "" then
    ({ s1 with showInvestigationSuggestions := true }, some value)
  else
    ({ s1 with investigationSuggestions := [], showInvestigationSuggestions := false }, none)

/-- Which of the three row fields an input event targets. -/
inductive MedField where
  | name
  | dosage
  | frequency
deriving DecidableEq

/-- `updatedMedicines[index][field] = value`. -/
def setField (l : MedicineLine) (f : MedField) (v : String) : MedicineLine :=
  match f with
  | .name => { l with name := v }
  | .dosage => { l with dosage := v }
  | .frequency => { l with frequency := v }

/-- The combined search term of a row:
`` `${name} ${dosage} ${frequency}`.trim() ``. -/
def combinedSearchTerm (l : MedicineLine) : String :=
  jsTrim (l.name ++ " " ++ l.dosage ++ " " ++ l.frequency)

/-- `handleMedicineInputChange(index, field, value)`: write the field, make
the row the active one and set the combined query.  The source guards on
`field === 'name' || field === 'dosage' || field === 'frequency'`, which is
exhaustive over `MedField`. -/
def handleMedicineInputChange (index : Nat) (f : MedField) (value : String) (s : State) : State :=
  let ms := updateAt s.medicines index (fun l => setField l f value)
  let term := match ms[index]? with
    | some l => combinedSearchTerm l
    | none => ""
  { s with medicines := ms, activeSearchIndex := some index, medicineSearch := term }

/-- `selectMedicine(index, medicine)`: overwrite the whole row from the
entity (`dosage` through `medicine.dosage || ''`), then clear suggestions,
active row and query. -/
def selectMedicine (index : Nat) (m : MedicineEntity) (s : State) : State :=
  { s with
    medicines := updateAt s.medicines index (fun l =>
      { l with name := m.name, dosage := jsOrStr m.dosage "", frequency := m.frequency }),
    medicineSuggestions := [],
    activeSearchIndex := none,
    medicineSearch := "" }

/-- `addMedicine()`. -/
def addMedicine (s : State) : State :=
  { s with medicines := s.medicines ++ [⟨"", "", ""⟩] }

/-- `removeMedicine(index)`: filter the row out, only when more than one
row remains; nothing else is touched. -/
def removeMedicine (index : Nat) (s : State) : State :=
  if s.medicines.length > 1 then
    { s with medicines := (s.medicines.enum.filter (fun p => p.1 != index)).map Prod.snd }
  else s

/-- `handleInputFocus(index)`: make the row active; set the combined query
only when it is non-empty. -/
def handleInputFocus (index : Nat) (s : State) : State :=
  let term := match s.medicines[index]? with
    | some l => combinedSearchTerm l
    | none => ""
  if term ≠ "" then
    { s with activeSearchIndex := some index, medicineSearch := term }
  else
    { s with activeSearchIndex := some index }

/-- The delay (ms) of the `setTimeout` in `handleInputBlur`. -/
def handleInputBlurDelay : Nat := 200

/-- `handleInputBlur()`: nothing synchronous happens; a teardown task is
scheduled after `handleInputBlurDelay`.  Returned as (unchanged state, delay). -/
def handleInputBlur (s : State) : State × Nat := (s, handleInputBlurDelay)

/-- The body of the timer scheduled by `handleInputBlur`. -/
def blurTimerFire (s : State) : State :=
  { s with activeSearchIndex := none, medicineSuggestions := [] }

/-- The delay (ms) of the `setTimeout` in the patient input `onBlur`. -/
def patientBlurDelay : Nat := 200

/-- `onBlur` of the patient name input: nothing synchronous; schedules
`patientBlurTimerFire` after `patientBlurDelay`. -/
def patientInputBlur (s : State) : State × Nat := (s, patientBlurDelay)

/-- The body of the patient blur timer: `setShowPatientSuggestions(false)`
only — the suggestion array itself is not touched. -/
def patientBlurTimerFire (s : State) : State :=
  { s with showPatientSuggestions := false }

/-- Outcome of the blur race on a medicine input, with the blur at time 0
(teardown timer due at `handleInputBlurDelay`) and an optional suggestion
click at time `t` on row `row`; events run in time order, and the teardown
timer is never cancelled. -/
def blurThenMaybeClick (s : State) (click : Option (Nat × Nat × MedicineEntity)) : State :=
  match click with
  | none => blurTimerFire s
  | some (t, row, m) =>
      if t < handleInputBlurDelay then blurTimerFire (selectMedicine row m s)
      else selectMedicine row m (blurTimerFire s)

/-- `!formData.patient_name || medicines.some(m => !m.name || !m.frequency)`. -/
def submitRejected (s : State) : Bool :=
  s.patient_name == "" || s.medicines.any (fun m => m.name == "" || m.frequency == "")

/-- The `patient_age` field of the POST body:
`formData.patient_age ? parseInt(formData.patient_age) : null`, with NaN
serialising to JSON null. -/
def postedPatientAge (s : State) : JVal :=
  if s.patient_age ≠ "" then
    match jsParseInt s.patient_age with
    | some n => JVal.jnum n
    | none => JVal.jnull
  else JVal.jnull

/-- Body of `POST /api/prescriptions` as assembled by `handleSubmit`. -/
structure PostBody where
  patient_name : String
  patient_age : JVal
  date : String
  diagnosis : String
  investigations : String
  doctor_notes : String
  medicines : List MedicineLine
deriving DecidableEq

/-- `handleSubmit`: on a validation failure report a toast and issue no
request (`none`); otherwise set `loading` and return the POST body. -/
def handleSubmit (s : State) : State × Option PostBody :=
  if submitRejected s then
    ({ s with toasts := s.toasts ++ ["Please fill all required fields"] }, none)
  else
    ({ s with loading := true },
     some { patient_name := s.patient_name
            patient_age := postedPatientAge s
            date := s.date
            diagnosis := s.diagnosis
            investigations := s.investigations
            doctor_notes := s.doctor_notes
            medicines := s.medicines })

end CreateFull

namespace CreateBasic

open RxApp

/-- The `useState` pieces of the second `CreatePrescription` variant (no
diagnosis/investigations fields, no patient or investigation typeahead). -/
structure State where
  patient_name : String
  patient_age : String
  date : String
  doctor_notes : String
  medicines : List MedicineLine
  medicineSearch : String
  medicineSuggestions : List MedicineEntity
  activeSearchIndex : Option Nat
  loading : Bool
  toasts : List String
deriving DecidableEq

/-- The `useEffect` on `[medicineSearch, activeSearchIndex]` (same text as
in the first variant). -/
def medSearchEffect (s : State) : State × Option MedSearchRequest :=
  match s.activeSearchIndex with
  | some i =>
      if s.medicineSearch ≠ "" then (s, some ⟨i, s.medicineSearch⟩)
      else ({ s with medicineSuggestions := [] }, none)
  | none => ({ s with medicineSuggestions := [] }, none)

/-- Resolution branch of `searchMedicines`. -/
def searchMedicinesResolve (s : State) (resp : List MedicineEntity) : State :=
  { s with medicineSuggestions := resp }

/-- Catch branch of `searchMedicines`: only `console.error`. -/
def searchMedicinesCatch (s : State) (_e : ApiError) : State := s

/-- `handleMedicineInputChange(index, field, value)`: write the field; only
a name-field change makes the row active and sets the query to the raw value. -/
def handleMedicineInputChange (index : Nat) (f : CreateFull.MedField) (value : String)
    (s : State) : State :=
  let ms := updateAt s.medicines index (fun l => CreateFull.setField l f value)
  if f = CreateFull.MedField.name then
    { s with medicines := ms, activeSearchIndex := some index, medicineSearch := value }
  else
    { s with medicines := ms }

/-- `selectMedicine(index, medicine)`: overwrite only the name field of the
row, then clear suggestions, active row and query. -/
def selectMedicine (index : Nat) (m : MedicineEntity) (s : State) : State :=
  { s with
    medicines := updateAt s.medicines index (fun l => { l with name := m.name }),
    medicineSuggestions := [],
    activeSearchIndex := none,
    medicineSearch := "" }

/-- `addMedicine()`. -/
def addMedicine (s : State) : State :=
  { s with medicines := s.medicines ++ [⟨"", "", ""⟩] }

/-- `removeMedicine(index)` (same text as in the first variant). -/
def removeMedicine (index : Nat) (s : State) : State :=
  if s.medicines.length > 1 then
    { s with medicines := (s.medicines.enum.filter (fun p => p.1 != index)).map Prod.snd }
  else s

/-- `!formData.patient_name || medicines.some(m => !m.name || !m.dosage || !m.frequency)`. -/
def submitRejected (s : State) : Bool :=
  s.patient_name == "" ||
    s.medicines.any (fun m => m.name == "" || m.dosage == "" || m.frequency == "")

/-- `patient_age` of the POST body, as in the first variant. -/
def postedPatientAge (s : State) : JVal :=
  if s.patient_age ≠ "" then
    match jsParseInt s.patient_age with
    | some n => JVal.jnum n
    | none => JVal.jnull
  else JVal.jnull

/-- Body of `POST /api/prescriptions` in this variant (no diagnosis or
investigations keys). -/
structure PostBody where
  patient_name : String
  patient_age : JVal
  date : String
  doctor_notes : String
  medicines : List MedicineLine
deriving DecidableEq

/-- `handleSubmit` of the second variant. -/
def handleSubmit (s : State) : State × Option PostBody :=
  if submitRejected s then
    ({ s with toasts := s.toasts ++ ["Please fill all required fields"] }, none)
  else
    ({ s with loading := true },
     some { patient_name := s.patient_name
            patient_age := postedPatientAge s
            date := s.date
            doctor_notes := s.doctor_notes
            medicines := s.medicines })

end CreateBasic

namespace AppShell

open RxApp

/-- The four route paths of `App.js`. -/
inductive Route where
  | login
  | dashboard
  | create
  | viewRx (id : Nat)
deriving DecidableEq

/-- JS `!!token` for `localStorage.getItem('token')` (null or a string):
only a present, non-empty string is truthy. -/
def tokenTruthy : Option String → Bool
  | some t => t != ""
  | none => false

/-- The `Routes` table of `App.js`: `/login` renders `Login` when not
authenticated and otherwise navigates to `/`; the three protected paths
render their page when authenticated and otherwise navigate to `/login`. -/
def resolveRoute (isAuth : Bool) (r : Route) : Route :=
  match r with
  | .login => if isAuth then .dashboard else .login
  | .dashboard => if isAuth then .dashboard else .login
  | .create => if isAuth then .create else .login
  | .viewRx i => if isAuth then .viewRx i else .login

/-- Combined state of browser storage, the `App` component and navigation. -/
structure Shell where
  token : Option String
  doctorName : Option String
  isAuthenticated : Bool
  route : Route
  toasts : List String
deriving DecidableEq

/-- The mount `useEffect` of `App.js`: `setIsAuthenticated(!!token)`. -/
def appLoad (sh : Shell) : Shell :=
  { sh with isAuthenticated := tokenTruthy sh.token }

/-- `Dashboard.handleLogout`: remove token and doctorName from storage and
`navigate('/login')`; the navigation target is then resolved through the
route gate with the (unchanged) `isAuthenticated` component state. -/
def handleLogout (sh : Shell) : Shell :=
  let sh1 := { sh with token := none, doctorName := none }
  { sh1 with route := resolveRoute sh1.isAuthenticated Route.login }

/-- Modelled from the spec: `Login.js` is not among the sources.  `App.js`
passes `setIsAuthenticated` to it, and per the spec the authentication check
"is evaluated once at load and again after explicit login/logout
transitions"; so a successful login stores the token and name, sets the
flag from the new token, and navigates to the default view. -/
def loginTransition (tok doctor : String) (sh : Shell) : Shell :=
  let sh1 := { sh with token := some tok, doctorName := some doctor,
                       isAuthenticated := tokenTruthy (some tok) }
  { sh1 with route := resolveRoute sh1.isAuthenticated Route.dashboard }

/-- Catch branch of `Dashboard.fetchPrescriptions`: one error toast, no
branching on the status code, no storage write, no navigation. -/
def fetchPrescriptionsCatch (_e : ApiError) (sh : Shell) : Shell :=
  { sh with toasts := sh.toasts ++ ["Failed to fetch prescriptions"] }

/-- Catch branch of `ViewPrescription.fetchPrescription`: one error toast
and `navigate('/')`, resolved through the route gate; again no branching on
the status code and no storage write. -/
def fetchPrescriptionCatch (_e : ApiError) (sh : Shell) : Shell :=
  let sh1 := { sh with toasts := sh.toasts ++ ["Failed to fetch prescription"] }
  { sh1 with route := resolveRoute sh1.isAuthenticated Route.dashboard }

end AppShell

namespace Fixtures

open RxApp

/-- The medicine entity of the spec scenario. -/
def para : MedicineEntity := ⟨1, "Paracetamol", "500mg", "Twice daily", []⟩

/-- A concrete patient suggestion. -/
def pat1 : PatientEntity := ⟨7, "Asha Rao", some 34⟩

/-- The initial state of the first `CreatePrescription` variant. -/
def baseFull : CreateFull.State :=
  { patient_name := ""
    patient_age := ""
    date := "2026-10-11"
    diagnosis := ""
    investigations := ""
    doctor_notes := ""
    medicines := [⟨"", "", ""⟩]
    medicineSearch := ""
    medicineSuggestions := []
    activeSearchIndex := none
    patientSuggestions := []
    showPatientSuggestions := false
    investigationSuggestions := []
    showInvestigationSuggestions := false
    loading := false
    toasts := [] }

/-- The initial state of the second `CreatePrescription` variant. -/
def baseBasic : CreateBasic.State :=
  { patient_name := ""
    patient_age := ""
    date := "2026-10-11"
    doctor_notes := ""
    medicines := [⟨"", "", ""⟩]
    medicineSearch := ""
    medicineSuggestions := []
    activeSearchIndex := none
    loading := false
    toasts := [] }

end Fixtures

section ClaimC1

open RxApp

/-- The C1 property as stated: a medicine-search resolution arriving when
`activeSearchIndex` no longer matches the issuing row leaves the suggestion
list unmutated. -/
def c1_stated : Prop :=
  ∀ (s : CreateFull.State) (req : MedSearchRequest) (resp : List MedicineEntity),
    s.activeSearchIndex ≠ some req.issuingRow →
      (CreateFull.searchMedicinesResolve s resp).medicineSuggestions = s.medicineSuggestions

/-- State in which row 0 is active with query `"Para"`, about to issue a search. -/
def c1s0 : CreateFull.State :=
  { Fixtures.baseFull with
    medicines := [⟨"Para", "", ""⟩, ⟨"", "", ""⟩]
    activeSearchIndex := some 0
    medicineSearch := "Para" }

/-- The same form after focus moved to row 1 (`handleInputFocus 1`), while
the row-0 search is still in flight. -/
def c1s1 : CreateFull.State := CreateFull.handleInputFocus 1 c1s0

/-- C1 counterexample: the effect issues a request from row 0; after focus
moves to row 1 the resolution of that request still overwrites the
suggestion list (there is no row-identity guard in `searchMedicines`). -/
theorem c1_counterexample :
    (CreateFull.medSearchEffect c1s0).2 = some ⟨0, "Para"⟩
    ∧ c1s1.activeSearchIndex = some 1
    ∧ c1s1.medicineSuggestions = []
    ∧ (CreateFull.searchMedicinesResolve c1s1 [Fixtures.para]).medicineSuggestions
        = [Fixtures.para]
    ∧ ¬ c1_stated := by
  refine ⟨by decide, by decide, by decide, by decide, fun h => ?_⟩
  exact absurd (h c1s1 ⟨0, "Para"⟩ [Fixtures.para] (by decide)) (by decide)

/-- C1 (amended): stale medicine-search resolutions are not discarded — a
resolution overwrites `medicineSuggestions` with its response regardless of
which row issued it and which row is now active; the list is cleared only
when the reactive effect itself runs with no active row (or an empty query). -/
theorem c1_amended (s sNoActive : CreateFull.State) (resp : List MedicineEntity)
    (h : sNoActive.activeSearchIndex = none) :
    (CreateFull.searchMedicinesResolve s resp).medicineSuggestions = resp
    ∧ (CreateFull.medSearchEffect sNoActive).1.medicineSuggestions = []
    ∧ (CreateFull.medSearchEffect sNoActive).2 = none := by
  refine ⟨rfl, ?_, ?_⟩ <;> simp [CreateFull.medSearchEffect, h]

/-- C1 witness: the amended theorem evaluated at concrete inputs. -/
theorem c1_witness :
    (CreateFull.searchMedicinesResolve Fixtures.baseFull [Fixtures.para]).medicineSuggestions
        = [Fixtures.para]
    ∧ (CreateFull.medSearchEffect Fixtures.baseFull).1.medicineSuggestions = []
    ∧ (CreateFull.medSearchEffect Fixtures.baseFull).2 = none :=
  c1_amended Fixtures.baseFull Fixtures.baseFull [Fixtures.para] rfl

end ClaimC1

section ClaimC2

open RxApp

/-- The C2 property as stated: in both page variants, selecting a medicine
suggestion overwrites all three fields of the row from the selected entity,
and immediately afterwards the suggestion list is empty and
`activeSearchIndex` is cleared. -/
def c2_stated : Prop :=
  (∀ (s : CreateFull.State) (i : Nat) (m : MedicineEntity) (l : MedicineLine),
     (CreateFull.selectMedicine i m s).medicines[i]? = some l →
       l.name = m.name ∧ l.dosage = m.dosage ∧ l.frequency = m.frequency)
  ∧ (∀ (s : CreateBasic.State) (i : Nat) (m : MedicineEntity) (l : MedicineLine),
     (CreateBasic.selectMedicine i m s).medicines[i]? = some l →
       l.name = m.name ∧ l.dosage = m.dosage ∧ l.frequency = m.frequency)

/-- A second-variant form with one partially typed row and a suggestion list. -/
def c2s : CreateBasic.State :=
  { Fixtures.baseBasic with
    medicines := [⟨"Pa", "", ""⟩]
    medicineSuggestions := [Fixtures.para]
    activeSearchIndex := some 0
    medicineSearch := "Pa" }

/-- C2 counterexample: in the second variant, `selectMedicine` writes only
the name — the row keeps its old dosage and frequency instead of taking
`"500mg"` and `"Twice daily"` from the selected entity. -/
theorem c2_counterexample :
    (CreateBasic.selectMedicine 0 Fixtures.para c2s).medicines[0]?
        = some ⟨"Paracetamol", "", ""⟩
    ∧ Fixtures.para.dosage = "500mg"
    ∧ Fixtures.para.frequency = "Twice daily"
    ∧ ¬ c2_stated := by
  refine ⟨by decide, by decide, by decide, fun h => ?_⟩
  exact absurd ((h.2 c2s 0 Fixtures.para ⟨"Paracetamol", "", ""⟩ (by decide)).2.1) (by decide)

/-- C2 (amended): in the comprehensive variant selection overwrites all
three fields of the target row from the entity (dosage through
`medicine.dosage || ''`); in the name-only variant it overwrites only the
name; in both variants the suggestion list becomes empty and
`activeSearchIndex` is cleared immediately after. -/
theorem c2_amended (s : CreateFull.State) (sb : CreateBasic.State) (i : Nat)
    (m : MedicineEntity) (l lb : MedicineLine)
    (h : s.medicines[i]? = some l) (hb : sb.medicines[i]? = some lb) :
    (CreateFull.selectMedicine i m s).medicines[i]?
        = some ⟨m.name, jsOrStr m.dosage "", m.frequency⟩
    ∧ (CreateFull.selectMedicine i m s).medicineSuggestions = []
    ∧ (CreateFull.selectMedicine i m s).activeSearchIndex = none
    ∧ (CreateBasic.selectMedicine i m sb).medicines[i]? = some { lb with name := m.name }
    ∧ (CreateBasic.selectMedicine i m sb).medicineSuggestions = []
    ∧ (CreateBasic.selectMedicine i m sb).activeSearchIndex = none := by
  refine ⟨?_, rfl, rfl, ?_, rfl, rfl⟩
  · simp [CreateFull.selectMedicine, updateAt_getq, h]
  · simp [CreateBasic.selectMedicine, updateAt_getq, hb]

/-- C2 witness: the amended theorem evaluated on the spec scenario (query
`"Para"`, entity Paracetamol/500mg/Twice daily, row 0). -/
theorem c2_witness :
    (CreateFull.selectMedicine 0 Fixtures.para Fixtures.baseFull).medicines[0]?
        = some ⟨"Paracetamol", "500mg", "Twice daily"⟩
    ∧ (CreateBasic.selectMedicine 0 Fixtures.para c2s).medicineSuggestions = [] :=
  ⟨(c2_amended Fixtures.baseFull c2s 0 Fixtures.para ⟨"", "", ""⟩ ⟨"Pa", "", ""⟩
      rfl rfl).1,
   (c2_amended Fixtures.baseFull c2s 0 Fixtures.para ⟨"", "", ""⟩ ⟨"Pa", "", ""⟩
      rfl rfl).2.2.2.2.1⟩

end ClaimC2

section ClaimC7

open RxApp

/-- The C7 property as stated: a failed search is swallowed (no toast) and
the suggestion state degrades to an empty list. -/
def c7_stated : Prop :=
  ∀ (s : CreateFull.State) (e : ApiError),
    (CreateFull.searchMedicinesCatch s e).toasts = s.toasts
    ∧ (CreateFull.searchMedicinesCatch s e).medicineSuggestions = []
    ∧ (CreateFull.searchPatientsCatch s e).patientSuggestions = []

/-- A form that already shows a medicine suggestion when a search fails. -/
def c7s : CreateFull.State :=
  { Fixtures.baseFull with
    medicines := [⟨"Para", "", ""⟩]
    activeSearchIndex := some 0
    medicineSearch := "Para"
    medicineSuggestions := [Fixtures.para] }

/-- C7 counterexample: the catch branch leaves the previous suggestion list
in place — after an AuthError the list still holds the old entry, it does
not degrade to empty. -/
theorem c7_counterexample :
    (CreateFull.searchMedicinesCatch c7s ApiError.auth).medicineSuggestions = [Fixtures.para]
    ∧ ¬ c7_stated := by
  refine ⟨by decide, fun h => ?_⟩
  exact absurd (h c7s ApiError.auth).2.1 (by decide)

/-- C7 (amended): search failures (NetworkError or AuthError, any of the
three endpoints, either page variant) are swallowed with the state left
completely unchanged — no toast, typing and submission unaffected; in
particular the suggestion list keeps its previous value, so it is empty
only if it was already empty. -/
theorem c7_amended (s : CreateFull.State) (sb : CreateBasic.State) (e : ApiError) :
    CreateFull.searchMedicinesCatch s e = s
    ∧ CreateFull.searchPatientsCatch s e = s
    ∧ CreateFull.searchInvestigationsCatch s e = s
    ∧ CreateBasic.searchMedicinesCatch sb e = sb
    ∧ (CreateFull.handleSubmit (CreateFull.searchMedicinesCatch s e)).2
        = (CreateFull.handleSubmit s).2
    ∧ (CreateFull.searchMedicinesCatch s e).toasts = s.toasts :=
  ⟨rfl, rfl, rfl, rfl, rfl, rfl⟩

end ClaimC7

section ClaimC9

open RxApp

/-- C9: an empty query never reaches the network on any of the three
typeahead fields — the patient and investigation change handlers with empty
text issue no request and clear their suggestion state, and the medicine
effect with an empty combined query issues no request and clears the
medicine suggestion list. -/
theorem c9_emptyQueryShortCircuit (s : CreateFull.State) (h : s.medicineSearch = "") :
    ((CreateFull.handlePatientNameChange "" s).2 = none
     ∧ (CreateFull.handlePatientNameChange "" s).1.patientSuggestions = []
     ∧ (CreateFull.handlePatientNameChange "" s).1.showPatientSuggestions = false)
    ∧ ((CreateFull.handleInvestigationChange "" s).2 = none
     ∧ (CreateFull.handleInvestigationChange "" s).1.investigationSuggestions = []
     ∧ (CreateFull.handleInvestigationChange "" s).1.showInvestigationSuggestions = false)
    ∧ ((CreateFull.medSearchEffect s).2 = none
     ∧ (CreateFull.medSearchEffect s).1.medicineSuggestions = []) := by
  refine ⟨⟨?_, ?_, ?_⟩, ⟨?_, ?_, ?_⟩, ?_, ?_⟩ <;>
    first
    | simp [CreateFull.handlePatientNameChange]
    | simp [CreateFull.handleInvestigationChange]
    | cases hA : s.activeSearchIndex <;> simp [CreateFull.medSearchEffect, hA, h]

/-- C9 witness: the theorem evaluated on the fresh form state. -/
theorem c9_witness :
    (CreateFull.handlePatientNameChange "" Fixtures.baseFull).2 = none
    ∧ (CreateFull.handleInvestigationChange "" Fixtures.baseFull).2 = none
    ∧ (CreateFull.medSearchEffect Fixtures.baseFull).2 = none :=
  ⟨(c9_emptyQueryShortCircuit Fixtures.baseFull rfl).1.1,
   (c9_emptyQueryShortCircuit Fixtures.baseFull rfl).2.1.1,
   (c9_emptyQueryShortCircuit Fixtures.baseFull rfl).2.2.1⟩

end ClaimC9

section ClaimC3

open RxApp

theorem handleSubmitFull_none_iff (s : CreateFull.State) :
    (CreateFull.handleSubmit s).2 = none ↔ CreateFull.submitRejected s = true := by
  cases h : CreateFull.submitRejected s <;> simp [CreateFull.handleSubmit, h]

theorem submitRejectedFull_iff (s : CreateFull.State) :
    CreateFull.submitRejected s = true ↔
      (s.patient_name = "" ∨ ∃ m ∈ s.medicines, m.name = "" ∨ m.frequency = "") := by
  simp [CreateFull.submitRejected, List.any_eq_true]

theorem handleSubmitBasic_none_iff (s : CreateBasic.State) :
    (CreateBasic.handleSubmit s).2 = none ↔ CreateBasic.submitRejected s = true := by
  cases h : CreateBasic.submitRejected s <;> simp [CreateBasic.handleSubmit, h]

theorem submitRejectedBasic_iff (s : CreateBasic.State) :
    CreateBasic.submitRejected s = true ↔
      (s.patient_name = "" ∨
        ∃ m ∈ s.medicines, m.name = "" ∨ m.dosage = "" ∨ m.frequency = "") := by
  simp [CreateBasic.submitRejected, List.any_eq_true, or_assoc]

/-- The C3 property as stated: in both page variants, submission is rejected
locally exactly when the patient name is empty, some row has an empty name,
or some row has an empty frequency — an empty dosage alone never blocks. -/
def c3_stated : Prop :=
  (∀ s : CreateFull.State,
     ((CreateFull.handleSubmit s).2 = none ↔
       (s.patient_name = "" ∨ ∃ m ∈ s.medicines, m.name = "" ∨ m.frequency = "")))
  ∧ (∀ sb : CreateBasic.State,
     ((CreateBasic.handleSubmit sb).2 = none ↔
       (sb.patient_name = "" ∨ ∃ m ∈ sb.medicines, m.name = "" ∨ m.frequency = "")))

/-- A second-variant form whose only gap is an empty dosage. -/
def c3s : CreateBasic.State :=
  { Fixtures.baseBasic with
    patient_name := "Asha Rao"
    medicines := [⟨"Paracetamol", "", "Twice daily"⟩] }

/-- C3 counterexample: in the second variant a row with empty dosage but
non-empty name and frequency still blocks submission (no POST is issued),
although patient name, all row names and all row frequencies are non-empty. -/
theorem c3_counterexample :
    (CreateBasic.handleSubmit c3s).2 = none
    ∧ c3s.patient_name = "Asha Rao"
    ∧ c3s.medicines = [⟨"Paracetamol", "", "Twice daily"⟩]
    ∧ ¬ c3_stated := by
  refine ⟨by decide, by decide, by decide, fun h => ?_⟩
  exact absurd ((h.2 c3s).mp (by decide)) (by decide)

/-- C3 (amended): in the comprehensive variant rejection happens exactly on
empty patient name, empty row name or empty row frequency (dosage optional),
with an error toast and no POST; in the name-only variant an empty dosage is
a fourth rejection cause.  In both, rejection reports the toast and issues
no request. -/
theorem c3_amended (s : CreateFull.State) (sb : CreateBasic.State) :
    ((CreateFull.handleSubmit s).2 = none ↔
        (s.patient_name = "" ∨ ∃ m ∈ s.medicines, m.name = "" ∨ m.frequency = ""))
    ∧ ((CreateFull.handleSubmit s).2 = none →
        (CreateFull.handleSubmit s).1.toasts = s.toasts ++ ["Please fill all required fields"])
    ∧ ((CreateBasic.handleSubmit sb).2 = none ↔
        (sb.patient_name = "" ∨
          ∃ m ∈ sb.medicines, m.name = "" ∨ m.dosage = "" ∨ m.frequency = ""))
    ∧ ((CreateBasic.handleSubmit sb).2 = none →
        (CreateBasic.handleSubmit sb).1.toasts = sb.toasts ++ ["Please fill all required fields"]) := by
  refine ⟨?_, ?_, ?_, ?_⟩
  · rw [handleSubmitFull_none_iff, submitRejectedFull_iff]
  · intro h
    rw [handleSubmitFull_none_iff] at h
    simp [CreateFull.handleSubmit, h]
  · rw [handleSubmitBasic_none_iff, submitRejectedBasic_iff]
  · intro h
    rw [handleSubmitBasic_none_iff] at h
    simp [CreateBasic.handleSubmit, h]

/-- C3 witness: the amended theorem evaluated on the spec scenario (empty
patient name and one empty medicine row on the comprehensive variant). -/
theorem c3_witness :
    (CreateFull.handleSubmit Fixtures.baseFull).2 = none
    ∧ (CreateFull.handleSubmit Fixtures.baseFull).1.toasts
        = ["Please fill all required fields"] :=
  ⟨(c3_amended Fixtures.baseFull c3s).1.mpr (Or.inl rfl),
   (c3_amended Fixtures.baseFull c3s).2.1
     ((c3_amended Fixtures.baseFull c3s).1.mpr (Or.inl rfl))⟩

end ClaimC3

section ClaimC10

open RxApp

theorem postedPatientAge_not_jstr (s : CreateFull.State) (v : String) :
    CreateFull.postedPatientAge s ≠ JVal.jstr v := by
  unfold CreateFull.postedPatientAge
  split
  · split <;> simp
  · simp

theorem handleSubmitFull_some_age (s : CreateFull.State) (b : CreateFull.PostBody)
    (h : (CreateFull.handleSubmit s).2 = some b) :
    b.patient_age = CreateFull.postedPatientAge s := by
  by_cases hr : CreateFull.submitRejected s = true
  · simp [CreateFull.handleSubmit, hr] at h
  · simp only [Bool.not_eq_true] at hr
    simp only [CreateFull.handleSubmit, hr, Bool.false_eq_true, if_false,
      Option.some.injEq] at h
    subst h
    rfl

/-- C10: on every accepted submission of the comprehensive variant, the
`patient_age` of the POSTed body is JSON null when the entered string is
empty, is the integer result of `parseInt` when the string is non-empty and
parseable, and is never the raw string. -/
theorem c10_submittedAge (s : CreateFull.State) (b : CreateFull.PostBody)
    (h : (CreateFull.handleSubmit s).2 = some b) :
    (s.patient_age = "" → b.patient_age = JVal.jnull)
    ∧ (∀ n : Int, s.patient_age ≠ "" → jsParseInt s.patient_age = some n →
        b.patient_age = JVal.jnum n)
    ∧ (∀ v : String, b.patient_age ≠ JVal.jstr v) := by
  have hb := handleSubmitFull_some_age s b h
  refine ⟨?_, ?_, ?_⟩
  · intro he
    rw [hb]
    simp [CreateFull.postedPatientAge, he]
  · intro n hne hp
    rw [hb]
    simp [CreateFull.postedPatientAge, hne, hp]
  · intro v
    rw [hb]
    exact postedPatientAge_not_jstr s v

/-- A valid comprehensive-variant form with age entered as `"34"`. -/
def c10s : CreateFull.State :=
  { Fixtures.baseFull with
    patient_name := "Asha Rao"
    patient_age := "34"
    medicines := [⟨"Paracetamol", "500mg", "Twice daily"⟩] }

/-- The body the form above POSTs. -/
def c10b : CreateFull.PostBody :=
  { patient_name := "Asha Rao"
    patient_age := JVal.jnum 34
    date := "2026-10-11"
    diagnosis := ""
    investigations := ""
    doctor_notes := ""
    medicines := [⟨"Paracetamol", "500mg", "Twice daily"⟩] }

/-- C10 witness: the theorem evaluated on the concrete accepted submission. -/
theorem c10_witness :
    (CreateFull.handleSubmit c10s).2 = some c10b
    ∧ c10b.patient_age = JVal.jnum 34 :=
  ⟨by decide,
   (c10_submittedAge c10s c10b (by decide)).2.1 34 (by decide) (by decide)⟩

end ClaimC10

section ClaimC4

open RxApp

/-- The C4 property as stated: a 401 on the authenticated prescriptions GET
invalidates the session token and makes subsequent navigation land on the
login view. -/
def c4_stated : Prop :=
  ∀ sh : AppShell.Shell,
    (AppShell.fetchPrescriptionsCatch ApiError.auth sh).token = none
    ∧ AppShell.resolveRoute
        (AppShell.fetchPrescriptionsCatch ApiError.auth sh).isAuthenticated
        AppShell.Route.dashboard = AppShell.Route.login

/-- A logged-in session on the dashboard. -/
def c4sh : AppShell.Shell :=
  { token := some "tok"
    doctorName := some "Dr"
    isAuthenticated := true
    route := AppShell.Route.dashboard
    toasts := [] }

/-- C4 counterexample: after a 401 on the prescriptions GET the token is
still in storage, the in-memory flag is still true, and navigating to the
dashboard resolves to the dashboard, not to the login view — the catch
branch only emits a toast. -/
theorem c4_counterexample :
    (AppShell.fetchPrescriptionsCatch ApiError.auth c4sh).token = some "tok"
    ∧ (AppShell.fetchPrescriptionsCatch ApiError.auth c4sh).isAuthenticated = true
    ∧ AppShell.resolveRoute
        (AppShell.fetchPrescriptionsCatch ApiError.auth c4sh).isAuthenticated
        AppShell.Route.dashboard = AppShell.Route.dashboard
    ∧ (AppShell.fetchPrescriptionsCatch ApiError.auth c4sh).toasts
        = ["Failed to fetch prescriptions"]
    ∧ ¬ c4_stated := by
  refine ⟨by decide, by decide, by decide, by decide, fun h => ?_⟩
  exact absurd (h c4sh).1 (by decide)

/-- C4 (amended): fetch failures — the 401 AuthError included, since
neither catch branch inspects the status — only surface a toast: the
Dashboard keeps token, flag and route unchanged, and ViewPrescription
additionally navigates to the dashboard view (not to login).  The token is
never invalidated, so subsequent navigation stays on protected views. -/
theorem c4_amended (sh : AppShell.Shell) (e : ApiError)
    (hauth : sh.isAuthenticated = true) :
    (AppShell.fetchPrescriptionsCatch e sh).token = sh.token
    ∧ (AppShell.fetchPrescriptionsCatch e sh).isAuthenticated = sh.isAuthenticated
    ∧ (AppShell.fetchPrescriptionsCatch e sh).route = sh.route
    ∧ (AppShell.fetchPrescriptionsCatch e sh).toasts
        = sh.toasts ++ ["Failed to fetch prescriptions"]
    ∧ (AppShell.fetchPrescriptionCatch e sh).token = sh.token
    ∧ (AppShell.fetchPrescriptionCatch e sh).isAuthenticated = sh.isAuthenticated
    ∧ (AppShell.fetchPrescriptionCatch e sh).route = AppShell.Route.dashboard := by
  refine ⟨rfl, rfl, rfl, rfl, rfl, rfl, ?_⟩
  simp [AppShell.fetchPrescriptionCatch, AppShell.resolveRoute, hauth]

/-- C4 witness: the amended theorem evaluated on the logged-in session. -/
theorem c4_witness :
    (AppShell.fetchPrescriptionsCatch ApiError.auth c4sh).token = c4sh.token
    ∧ (AppShell.fetchPrescriptionCatch ApiError.auth c4sh).route
        = AppShell.Route.dashboard :=
  ⟨(c4_amended c4sh ApiError.auth rfl).1,
   (c4_amended c4sh ApiError.auth rfl).2.2.2.2.2.2⟩

end ClaimC4

section ClaimC5

open RxApp

/-- The C5 property as stated: unauthenticated access to protected views
redirects to login, authenticated access to login redirects to the default
view, and the authentication predicate is re-evaluated after every explicit
login and logout transition so that after logout the login view is reached. -/
def c5_stated : Prop :=
  (∀ r : AppShell.Route, r ≠ AppShell.Route.login →
     AppShell.resolveRoute false r = AppShell.Route.login)
  ∧ AppShell.resolveRoute true AppShell.Route.login = AppShell.Route.dashboard
  ∧ (∀ (sh : AppShell.Shell) (tok doctor : String),
      (AppShell.loginTransition tok doctor sh).isAuthenticated
        = AppShell.tokenTruthy (AppShell.loginTransition tok doctor sh).token)
  ∧ (∀ sh : AppShell.Shell,
      (AppShell.handleLogout sh).isAuthenticated
          = AppShell.tokenTruthy (AppShell.handleLogout sh).token
      ∧ (AppShell.handleLogout sh).route = AppShell.Route.login)

/-- A logged-in session on the dashboard, about to log out. -/
def c5sh : AppShell.Shell :=
  { token := some "tok"
    doctorName := some "Dr"
    isAuthenticated := true
    route := AppShell.Route.dashboard
    toasts := [] }

/-- C5 counterexample: `handleLogout` removes the token but never updates
the in-memory flag, so the flag disagrees with the token predicate and the
`navigate('/login')` resolves through the still-true gate back to the
dashboard — the login view is not reached. -/
theorem c5_counterexample :
    (AppShell.handleLogout c5sh).token = none
    ∧ (AppShell.handleLogout c5sh).isAuthenticated = true
    ∧ (AppShell.handleLogout c5sh).route = AppShell.Route.dashboard
    ∧ ¬ c5_stated := by
  refine ⟨by decide, by decide, by decide, fun h => ?_⟩
  exact absurd (h.2.2.2 c5sh).2 (by decide)

/-- C5 (amended): the two gate directions hold, and the predicate is
re-evaluated at load and after the explicit login transition; but after
`handleLogout` the in-memory flag is left unchanged, so from an
authenticated session logout clears storage yet navigation resolves back to
the dashboard, and the login view only becomes reachable after a full
reload re-runs the load check. -/
theorem c5_amended (sh : AppShell.Shell) (tok doctor : String) (r : AppShell.Route)
    (hne : r ≠ AppShell.Route.login) (hauth : sh.isAuthenticated = true) :
    AppShell.resolveRoute false r = AppShell.Route.login
    ∧ AppShell.resolveRoute true AppShell.Route.login = AppShell.Route.dashboard
    ∧ (AppShell.appLoad sh).isAuthenticated = AppShell.tokenTruthy sh.token
    ∧ (AppShell.loginTransition tok doctor sh).isAuthenticated
        = AppShell.tokenTruthy (some tok)
    ∧ (AppShell.handleLogout sh).token = none
    ∧ (AppShell.handleLogout sh).isAuthenticated = sh.isAuthenticated
    ∧ (AppShell.handleLogout sh).route = AppShell.Route.dashboard := by
  refine ⟨?_, rfl, rfl, rfl, rfl, rfl, ?_⟩
  · cases r <;> simp_all [AppShell.resolveRoute]
  · simp [AppShell.handleLogout, AppShell.resolveRoute, hauth]

/-- C5 witness: the amended theorem evaluated on the logged-in session and
the create view. -/
theorem c5_witness :
    AppShell.resolveRoute false AppShell.Route.create = AppShell.Route.login
    ∧ (AppShell.handleLogout c5sh).route = AppShell.Route.dashboard :=
  ⟨(c5_amended c5sh "tok" "Dr" AppShell.Route.create (by decide) rfl).1,
   (c5_amended c5sh "tok" "Dr" AppShell.Route.create (by decide) rfl).2.2.2.2.2.2⟩

end ClaimC5

section ClaimC6

open RxApp

/-- The C6 property as stated: with more than one row, removing a non-owner
row leaves suggestion ownership undisturbed, and removing the owner row
evicts it (no active row, no suggestions). -/
def c6_stated : Prop :=
  ∀ (s : CreateFull.State) (i : Nat),
    s.medicines.length > 1 →
      ((s.activeSearchIndex ≠ some i →
          (CreateFull.removeMedicine i s).activeSearchIndex = s.activeSearchIndex)
       ∧ (s.activeSearchIndex = some i →
          (CreateFull.removeMedicine i s).activeSearchIndex = none
          ∧ (CreateFull.removeMedicine i s).medicineSuggestions = []))

/-- A two-row form whose second row owns the suggestion list. -/
def c6s : CreateFull.State :=
  { Fixtures.baseFull with
    medicines := [⟨"Ibuprofen", "400mg", "Once daily"⟩, ⟨"Para", "", ""⟩]
    activeSearchIndex := some 1
    medicineSearch := "Para"
    medicineSuggestions := [Fixtures.para] }

/-- C6 counterexample: removing the owner row leaves `activeSearchIndex`
and the suggestion list untouched — ownership is not evicted. -/
theorem c6_counterexample :
    c6s.medicines.length = 2
    ∧ c6s.activeSearchIndex = some 1
    ∧ (CreateFull.removeMedicine 1 c6s).activeSearchIndex = some 1
    ∧ (CreateFull.removeMedicine 1 c6s).medicineSuggestions = [Fixtures.para]
    ∧ ¬ c6_stated := by
  refine ⟨by decide, by decide, by decide, by decide, fun h => ?_⟩
  exact absurd ((h c6s 1 (by decide)).2 rfl).1 (by decide)

/-- C6 (amended): `removeMedicine` filters the row out (when more than one
remains) and leaves `activeSearchIndex` and the suggestion list unchanged in
every case — so removing the owner row does not evict ownership (the stale
index survives), and with one row left the call is a no-op. -/
theorem c6_amended (s : CreateFull.State) (i j : Nat)
    (h : s.activeSearchIndex = some j) :
    (CreateFull.removeMedicine i s).activeSearchIndex = s.activeSearchIndex
    ∧ (CreateFull.removeMedicine i s).medicineSuggestions = s.medicineSuggestions
    ∧ (CreateFull.removeMedicine i s).activeSearchIndex = some j
    ∧ (s.medicines.length ≤ 1 → CreateFull.removeMedicine i s = s) := by
  refine ⟨?_, ?_, ?_, ?_⟩
  · unfold CreateFull.removeMedicine
    split <;> rfl
  · unfold CreateFull.removeMedicine
    split <;> rfl
  · unfold CreateFull.removeMedicine
    split <;> exact h
  · intro hle
    unfold CreateFull.removeMedicine
    rw [if_neg (by omega)]

/-- C6 witness: the amended theorem evaluated on the two-row form. -/
theorem c6_witness :
    (CreateFull.removeMedicine 0 c6s).activeSearchIndex = some 1
    ∧ (CreateFull.removeMedicine 1 c6s).medicineSuggestions = c6s.medicineSuggestions :=
  ⟨(c6_amended c6s 0 1 rfl).2.2.1, (c6_amended c6s 1 1 rfl).2.1⟩

end ClaimC6

section ClaimC8

open RxApp

/-- The C8 property as stated: on every typeahead blur, teardown is
deferred (nothing synchronous) by 200ms, and on expiry it clears the
suggestion list and closes the dropdown — for the medicine rows and for the
patient field alike. -/
def c8_stated : Prop :=
  (∀ s : CreateFull.State,
     (CreateFull.handleInputBlur s).1 = s
     ∧ (CreateFull.handleInputBlur s).2 = 200
     ∧ (CreateFull.blurTimerFire s).medicineSuggestions = []
     ∧ (CreateFull.blurTimerFire s).activeSearchIndex = none)
  ∧ (∀ s : CreateFull.State,
     (CreateFull.patientInputBlur s).1 = s
     ∧ (CreateFull.patientInputBlur s).2 = 200
     ∧ (CreateFull.patientBlurTimerFire s).patientSuggestions = []
     ∧ (CreateFull.patientBlurTimerFire s).showPatientSuggestions = false)

/-- A form showing both a medicine suggestion and a patient suggestion. -/
def c8s : CreateFull.State :=
  { Fixtures.baseFull with
    medicines := [⟨"Pa", "", ""⟩]
    activeSearchIndex := some 0
    medicineSearch := "Pa"
    medicineSuggestions := [Fixtures.para]
    patientSuggestions := [Fixtures.pat1]
    showPatientSuggestions := true }

/-- C8 counterexample: the patient-field blur teardown only hides the
dropdown — the suggestion array is left populated, it is not cleared. -/
theorem c8_counterexample :
    (CreateFull.patientBlurTimerFire c8s).showPatientSuggestions = false
    ∧ (CreateFull.patientBlurTimerFire c8s).patientSuggestions = [Fixtures.pat1]
    ∧ ¬ c8_stated := by
  refine ⟨by decide, by decide, fun h => ?_⟩
  exact absurd (h.2 c8s).2.2.1 (by decide)

/-- C8 (amended): every typeahead blur defers teardown by a fixed 200ms
with no synchronous state change, so a suggestion click arriving inside the
delay still reads the list and its selection survives the later teardown;
without a click the medicine teardown clears the suggestion list and the
active row, while the patient teardown only closes the dropdown
(`showPatientSuggestions := false`) and leaves the suggestion array as it
was. -/
theorem c8_amended (s : CreateFull.State) (t row : Nat) (m : MedicineEntity)
    (hm : m ∈ s.medicineSuggestions) (ht : t < CreateFull.handleInputBlurDelay) :
    (CreateFull.handleInputBlur s).1 = s
    ∧ (CreateFull.handleInputBlur s).2 = 200
    ∧ (CreateFull.blurThenMaybeClick s (some (t, row, m))).medicines
        = (CreateFull.selectMedicine row m s).medicines
    ∧ (CreateFull.blurThenMaybeClick s none).medicineSuggestions = []
    ∧ (CreateFull.blurThenMaybeClick s none).activeSearchIndex = none
    ∧ (CreateFull.patientInputBlur s).1 = s
    ∧ (CreateFull.patientBlurTimerFire s).showPatientSuggestions = false
    ∧ (CreateFull.patientBlurTimerFire s).patientSuggestions = s.patientSuggestions := by
  refine ⟨rfl, rfl, ?_, rfl, rfl, rfl, rfl, rfl⟩
  simp [CreateFull.blurThenMaybeClick, CreateFull.blurTimerFire, ht]

/-- C8 witness: the amended theorem evaluated with a click 50ms after blur
selecting the Paracetamol suggestion on row 0. -/
theorem c8_witness :
    (CreateFull.blurThenMaybeClick c8s (some (50, 0, Fixtures.para))).medicines
      = (CreateFull.selectMedicine 0 Fixtures.para c8s).medicines :=
  (c8_amended c8s 50 0 Fixtures.para (by decide) (by decide)).2.2.1

end ClaimC8
